import Mathlib

/-!
Shallow embedding of `tools/codex_godot_process_manager.py`
(`CodexGodotProcessManager`): a process-session orchestrator that spawns a
headless Godot child, exchanges line-delimited JSON-RPC style messages over
its standard streams, intercepts the reserved handshake ("banner") exchange,
surfaces diagnostics on a thread-safe queue, and monitors liveness via
heartbeats.

The embedding is state-passing: each Python method becomes a pure function
from session state (plus explicit clock inputs for `time.time()` /
`time.monotonic()` readings) to session state, together with the values the
method returns or the observable effects it performs.  JSON values are an
inductive tree; `json.loads` (a library routine external to the repository)
is abstracted as a `String → Option Json` parameter, and `json.dumps` with
compact separators is embedded as `Json.dumps`.  Wall-clock timestamps are
naturals and monotonic-clock readings are rationals (Python floats are
rationals; no property here depends on binary rounding).
-/

/-- JSON-like values, the decoded form of inbound lines and the payloads of
outbound requests.  `obj` keeps fields as an association list in insertion
order, matching Python `dict` iteration order. -/
inductive Json where
  | null : Json
  | bool : Bool → Json
  | num : Int → Json
  | str : String → Json
  | arr : List Json → Json
  | obj : List (String × Json) → Json
deriving Repr

/-- `dict.get k` for an object's field list: the value at the first matching
key, or `none` (Python `None` from `dict.get`) when absent. -/
def Json.lookupField : List (String × Json) → String → Option Json
  | [], _ => none
  | (k, v) :: rest, key => if k = key then some v else Json.lookupField rest key

/-- Whether a decoded value is a mapping (`isinstance(x, dict)`). -/
def Json.isObj : Json → Bool
  | .obj _ => true
  | _ => false

/-- Python `==` between a decoded JSON value and an `int` request identifier:
numbers compare by value and booleans compare as 0/1 (`False == 0`,
`True == 1` in Python); every other shape is unequal to an int. -/
def Json.pyEqInt : Json → Int → Bool
  | .num n, i => n = i
  | .bool b, i => (if b then (1 : Int) else 0) = i
  | _, _ => false

/-- Minimal string escaping used by `json.dumps` on the ASCII payloads this
program produces: backslash and double quote. -/
def jsonEscape (s : String) : String :=
  String.join (s.toList.map fun c =>
    if c = '\\' then "\\\\" else if c = '"' then "\\\"" else String.singleton c)

mutual

/-- `json.dumps(payload, separators=(",", ":"))`: compact encoding with no
spaces after separators. -/
def Json.dumps : Json → String
  | .null => "null"
  | .bool true => "true"
  | .bool false => "false"
  | .num n => toString n
  | .str s => "\"" ++ jsonEscape s ++ "\""
  | .arr xs => "[" ++ Json.dumpsList xs ++ "]"
  | .obj fs => "\x7b" ++ Json.dumpsFields fs ++ "\x7d"

/-- Comma-joined encodings of an array's elements. -/
def Json.dumpsList : List Json → String
  | [] => ""
  | [x] => Json.dumps x
  | x :: xs => Json.dumps x ++ "," ++ Json.dumpsList xs

/-- Comma-joined `"key":value` encodings of an object's fields. -/
def Json.dumpsFields : List (String × Json) → String
  | [] => ""
  | [(k, v)] => "\"" ++ jsonEscape k ++ "\":" ++ Json.dumps v
  | (k, v) :: fs => "\"" ++ jsonEscape k ++ "\":" ++ Json.dumps v ++ "," ++ Json.dumpsFields fs

end

/-- ASCII whitespace as recognised by Python's `str.strip()` (the lines
this program strips are ASCII). -/
def isPyWhitespace (c : Char) : Bool :=
  c = ' ' || c = '\t' || c = '\n' || c = '\r' || c = '\x0b' || c = '\x0c'

/-- Python `line.strip()`: the line with leading and trailing whitespace
removed. -/
def pyStrip (s : String) : String :=
  String.mk (((s.toList.dropWhile isPyWhitespace).reverse.dropWhile isPyWhitespace).reverse)

/-- A structured diagnostic dict as pushed onto `_stderr_queue`: keys
`timestamp`, `stream`, `text`, `level`, and (for heartbeat diagnostics only)
`session`.  `session = none` models the absence of the key. -/
structure Diagnostic where
  timestamp : Nat
  stream : String
  text : String
  level : String
  session : Option String
deriving Repr, DecidableEq

/-- State of the child's stdin pipe handle: whether `.close()` has been
called on it, and whether the pipe is broken (writes raise
`BrokenPipeError`).  A closed handle makes writes raise `ValueError`. -/
structure StdinState where
  closed : Bool
  broken : Bool
deriving Repr, DecidableEq

/-- The `subprocess.Popen` handle owned by the session: liveness
(`poll() is None`), the stdin pipe (`none` models a process created without
a stdin pipe), the lines successfully written to stdin, and the pid. -/
structure Proc where
  alive : Bool
  stdin : Option StdinState
  written : List String
  pid : Nat
deriving Repr, DecidableEq

/-- The mutable state of a `CodexGodotProcessManager` instance: constructor
configuration plus runtime fields.  Thread objects are modelled by
started-flags (their join behaviour carries no further observable state);
`stderrQueue` holds the diagnostics queue's contents in FIFO order, with
`none` modelling the `None` sentinel a reader thread pushes at end of
stream. -/
structure CodexGodotProcessManager where
  godotBinary : String
  projectRoot : String
  extraArgs : List String
  envOverrides : List (String × String)
  heartbeatInterval : Option Rat
  heartbeatTimeout : Option Rat
  bannerTimeout : Rat
  process : Option Proc
  stdoutThreadStarted : Bool
  stderrThreadStarted : Bool
  heartbeatThreadStarted : Bool
  stopEvent : Bool
  stderrQueue : List (Option Diagnostic)
  idCounter : Int
  bannerRequestId : Option Int
  banner : Option Json
  sessionId : String
  lastActivity : Rat
deriving Repr

namespace CodexGodotProcessManager

/-- `is_running`: `bool(self._process and self._process.poll() is None)`. -/
def is_running (s : CodexGodotProcessManager) : Bool :=
  match s.process with
  | some p => p.alive
  | none => false

/-- The two failure conditions `send_command` can raise as `RuntimeError`:
the guard's "Godot process is not running." and the transport failure
"Failed to send command to Godot process" re-raised from a
`BrokenPipeError`/`ValueError` during write. -/
inductive SendError where
  | notRunning : SendError
  | transportWrite : SendError
deriving Repr, DecidableEq

/-- `send_command(method, params, id_override=...)`.  Returns the post-call
state and either the assigned request id or the error raised.  The guard
`not self.is_running or not self._process or not self._process.stdin`
raises before any mutation; a present stdin handle is truthy in Python even
when closed, so a closed or broken pipe passes the guard, the id counter is
advanced, and the write itself fails (`ValueError` on a closed handle,
`BrokenPipeError` on a broken pipe), re-raised as the transport error. -/
def send_command (s : CodexGodotProcessManager) (method : String)
    (params : Option Json) (idOverride : Option Int) :
    CodexGodotProcessManager × Except SendError Int :=
  match s.process with
  | none => (s, .error .notRunning)
  | some p =>
    if p.alive = false then (s, .error .notRunning)
    else
      match p.stdin with
      | none => (s, .error .notRunning)
      | some stdinState =>
        let requestId : Int :=
          match idOverride with
          | some i => i
          | none => s.idCounter
        let s1 := { s with idCounter := max s.idCounter (requestId + 1) }
        let payload : Json := .obj
          [("id", .num requestId), ("method", .str method),
           ("params", match params with | some ps => ps | none => .obj [])]
        let message := payload.dumps ++ "\n"
        if stdinState.closed || stdinState.broken then
          (s1, .error .transportWrite)
        else
          ({ s1 with
              process := some { p with written := p.written ++ [message] } },
            .ok requestId)

/-- `_BANNER_METHOD`, the reserved handshake method name. -/
def BANNER_METHOD : String := "codex.banner"

/-- The params of the automatic handshake request sent by `start`. -/
def bannerParams (sessionId : String) : Json :=
  .obj [("client", .str "codex"), ("session", .str sessionId),
        ("protocol", .str "json-rpc")]

/-- The full line written to the child's stdin by the handshake request
(`id` fixed at 0). -/
def handshakeMessage (sessionId : String) : String :=
  (Json.obj [("id", .num 0), ("method", .str BANNER_METHOD),
             ("params", bannerParams sessionId)]).dumps ++ "\n"

/-- Python truthiness of an optional float (`if self.heartbeat_interval:`):
`None` and `0.0` are falsy, every other value truthy. -/
def ratTruthy : Option Rat → Bool
  | none => false
  | some q => !(q = 0)

/-- Externally visible actions `start` performs, in order: spawning the
child, starting a reader thread, writing the handshake line to the child's
stdin, starting the heartbeat monitor thread. -/
inductive StartEffect where
  | spawn : List String → StartEffect
  | startReader : String → StartEffect
  | sendLine : String → StartEffect
  | startHeartbeat : StartEffect
deriving Repr, DecidableEq

/-- `start()`: no-op if already running; otherwise spawns the child (fresh
pid supplied by the environment, live process with an open stdin pipe),
clears the stop event, starts the stdout and stderr reader threads, sends
the reserved handshake request with `id_override=0` recording the returned
id as the pending banner request, and finally — only if a heartbeat
interval was configured truthy — starts the heartbeat thread. -/
def start (s : CodexGodotProcessManager) (newPid : Nat) :
    CodexGodotProcessManager × List StartEffect :=
  if s.is_running then (s, [])
  else
    let command := [s.godotBinary, "--headless", "--path", s.projectRoot] ++ s.extraArgs
    let p : Proc := { alive := true, stdin := some { closed := false, broken := false },
                      written := [], pid := newPid }
    let s1 := { s with
        process := some p, stopEvent := false,
        stdoutThreadStarted := true, stderrThreadStarted := true }
    let sent := s1.send_command BANNER_METHOD (some (bannerParams s.sessionId)) (some 0)
    let s2 :=
      match sent.2 with
      | .ok rid => { sent.1 with bannerRequestId := some rid }
      | .error _ => sent.1
    if ratTruthy s.heartbeatInterval then
      ({ s2 with heartbeatThreadStarted := true },
        [.spawn command, .startReader "stdout", .startReader "stderr",
         .sendLine (handshakeMessage s.sessionId), .startHeartbeat])
    else
      (s2,
        [.spawn command, .startReader "stdout", .startReader "stderr",
         .sendLine (handshakeMessage s.sessionId)])

/-- Actions `stop` performs on the child process and threads. -/
inductive StopEffect where
  | closeStdin : StopEffect
  | terminate : StopEffect
  | kill : StopEffect
  | joinThread : String → StopEffect
deriving Repr, DecidableEq

/-- `stop()`: sets the stop event, returns immediately if no process handle
is held; otherwise flushes and closes stdin when open (errors ignored),
terminates the still-running child and — when the graceful terminate is
ignored past the grace period (`gracefulOk = false`) — kills it, joins
whichever background threads were started (each with a bounded timeout),
and releases the process handle.  Total: no path raises. -/
def stop (s : CodexGodotProcessManager) (gracefulOk : Bool) :
    CodexGodotProcessManager × List StopEffect :=
  let s0 := { s with stopEvent := true }
  match s0.process with
  | none => (s0, [])
  | some p =>
    let closeEffects :=
      match p.stdin with
      | some st => if st.closed then ([] : List StopEffect) else [.closeStdin]
      | none => []
    let termEffects :=
      if p.alive then (if gracefulOk then [StopEffect.terminate] else [.terminate, .kill])
      else []
    let joinEffects :=
      (if s0.stdoutThreadStarted then [StopEffect.joinThread "stdout"] else []) ++
      (if s0.stderrThreadStarted then [StopEffect.joinThread "stderr"] else []) ++
      (if s0.heartbeatThreadStarted then [StopEffect.joinThread "heartbeat"] else [])
    ({ s0 with process := none }, closeEffects ++ termEffects ++ joinEffects)

/-- The `SessionDescription` dataclass. -/
structure SessionDescription where
  session_id : String
  pid : Option Nat
  command : List String
  project_root : String
  banner : Option Json
  heartbeat_interval : Option Rat
  heartbeat_timeout : Option Rat
deriving Repr

/-- `describe_session()`: an immutable snapshot of the current state. -/
def describe_session (s : CodexGodotProcessManager) : SessionDescription :=
  { session_id := s.sessionId
    pid := (s.process).map Proc.pid
    command := [s.godotBinary, "--headless", "--path", s.projectRoot] ++ s.extraArgs
    project_root := s.projectRoot
    banner := s.banner
    heartbeat_interval := s.heartbeatInterval
    heartbeat_timeout := s.heartbeatTimeout }

/-- Round a rational to the nearest integer, ties to even — the rounding
`"%.2f" % x` style formatting applies. -/
def roundHalfEven (q : Rat) : Int :=
  let f := ⌊q⌋
  let frac := q - (f : Rat)
  if frac < 1 / 2 then f
  else if frac > 1 / 2 then f + 1
  else if f % 2 = 0 then f else f + 1

/-- Fixed two-decimal rendering of a rational, as `f"...{elapsed:.2f}s"`
renders the elapsed seconds. -/
def formatFixed2 (q : Rat) : String :=
  let n := roundHalfEven (|q| * 100)
  let sign := if q < 0 && !(n = 0) then "-" else ""
  let ip := n / 100
  let fp := (n % 100).toNat
  sign ++ toString ip ++ "." ++ (if fp < 10 then "0" else "") ++ toString fp

/-- The heartbeat diagnostic's message text:
`f"No stdout messages for \x7belapsed:.2f\x7ds"`. -/
def heartbeatText (elapsed : Rat) : String :=
  "No stdout messages for " ++ formatFixed2 elapsed ++ "s"

/-- The diagnostic dict lines 397–403 build: wall-clock timestamp, stream
"heartbeat", text naming the elapsed duration, level "warning", tagged
with the session id. -/
def heartbeatDiagnostic (wall : Nat) (elapsed : Rat) (sessionId : String) : Diagnostic :=
  { timestamp := wall, stream := "heartbeat", text := heartbeatText elapsed,
    level := "warning", session := some sessionId }

/-- `_maybe_emit_heartbeat_timeout()`, with the two clock readings the body
takes (`time.time()` for the diagnostic's timestamp, `time.monotonic()` for
the elapsed computation and the reset) passed in explicitly.  A falsy
(`None` or zero) `heartbeat_timeout` makes the check a no-op; below the
threshold nothing changes; at or above it exactly one warning diagnostic is
queued and the last-activity timestamp resets to now. -/
def maybe_emit_heartbeat_timeout (s : CodexGodotProcessManager)
    (wall : Nat) (mono : Rat) : CodexGodotProcessManager :=
  if ratTruthy s.heartbeatTimeout = false then s
  else
    match s.heartbeatTimeout with
    | none => s
    | some t =>
      let elapsed := mono - s.lastActivity
      if elapsed < t then s
      else
        { s with
            stderrQueue := s.stderrQueue ++ [some (heartbeatDiagnostic wall elapsed s.sessionId)],
            lastActivity := mono }

/-- One interaction of `iter_messages`'s loop body with the stdout queue:
the bounded `get` times out (`queue.Empty`), yields the reader thread's
`None` sentinel, or yields a raw line.  Each event carries the wall and
monotonic clock readings at that iteration. -/
inductive StdoutEvent where
  | timeout : StdoutEvent
  | sentinel : StdoutEvent
  | line : String → StdoutEvent
deriving Repr, DecidableEq

/-- A queue-poll observation paired with its clock readings. -/
structure IterEvent where
  event : StdoutEvent
  wall : Nat
  mono : Rat
deriving Repr, DecidableEq

/-- Outcome of processing one dequeued raw line inside `iter_messages`:
continue without yielding, yield a decoded message, or raise
(`AttributeError` from calling `.get` on a decoded non-mapping while the
handshake is pending). -/
inductive LineOutcome where
  | skip : CodexGodotProcessManager → LineOutcome
  | yield : CodexGodotProcessManager → Json → LineOutcome
  | raised : CodexGodotProcessManager → LineOutcome

/-- The `result` field of a decoded response object, `None` when absent
(`message.get("result")`). -/
def bannerResult (fields : List (String × Json)) : Json :=
  match Json.lookupField fields "result" with
  | some v => v
  | none => .null

/-- Lines 334–337: a banner payload that is itself a mapping is cached
as-is; anything else is wrapped as `\x7b"message": payload\x7d`. -/
def wrapBanner (payload : Json) : Json :=
  if payload.isObj then payload else .obj [("message", payload)]

/-- The per-line body of `iter_messages`: strip the line; skip it when
empty; on decode failure queue one protocol diagnostic carrying the
stripped text and continue; otherwise refresh last activity and — when a
banner request is pending and the decoded message's `id` equals it (Python
`==` against an int) — cache its `result` as the banner (wrapped as
`\x7b"message": payload\x7d` when not a mapping), clear the pending id and
consume the message; every other decoded message is yielded. -/
def processLine (decode : String → Option Json) (s : CodexGodotProcessManager)
    (wall : Nat) (mono : Rat) (line : String) : LineOutcome :=
  let stripped := pyStrip line
  if stripped = "" then .skip s
  else
    match decode stripped with
    | none =>
      .skip { s with stderrQueue := s.stderrQueue ++
        [some { timestamp := wall, stream := "stdout", text := stripped,
                level := "protocol", session := none }] }
    | some message =>
      let s1 := { s with lastActivity := mono }
      match s1.bannerRequestId with
      | none => .yield s1 message
      | some bid =>
        match message with
        | .obj fields =>
          let idValue := Json.lookupField fields "id"
          let idMatches :=
            match idValue with
            | some v => v.pyEqInt bid
            | none => false
          if idMatches then
            .skip { s1 with banner := some (wrapBanner (bannerResult fields)),
                            bannerRequestId := none }
          else .yield s1 message
        | _ => .raised s1

/-- The loop of `iter_messages` over a finite sequence of queue
observations: timeouts trigger the inline heartbeat check and retry, the
`None` sentinel ends iteration, lines go through `processLine`.  Returns
the final state, the messages yielded in order, and whether the loop raised
out of the generator. -/
def iterMessagesFrom (decode : String → Option Json) :
    CodexGodotProcessManager → List IterEvent →
    CodexGodotProcessManager × List Json × Bool
  | s, [] => (s, [], false)
  | s, e :: rest =>
    match e.event with
    | .timeout => iterMessagesFrom decode (s.maybe_emit_heartbeat_timeout e.wall e.mono) rest
    | .sentinel => (s, [], false)
    | .line l =>
      match processLine decode s e.wall e.mono l with
      | .skip s1 => iterMessagesFrom decode s1 rest
      | .yield s1 m =>
        let r := iterMessagesFrom decode s1 rest
        (r.1, m :: r.2.1, r.2.2)
      | .raised s1 => (s1, [], true)

/-- `iter_messages(timeout=...)`: raises `RuntimeError` (modelled as
`none`) unless the process is running, then runs the queue-consuming
loop. -/
def iter_messages (decode : String → Option Json) (s : CodexGodotProcessManager)
    (events : List IterEvent) :
    Option (CodexGodotProcessManager × List Json × Bool) :=
  if s.is_running then some (iterMessagesFrom decode s events) else none

/-- One poll of `iter_stderr_diagnostics` against shared state: what the
bounded `get(timeout=0.1)` produced (`none` = `queue.Empty`, `some none` =
the `None` sentinel, `some (some d)` = a diagnostic), together with the
values the loop body reads from shared state at that instant:
`self.is_running`, `self._stop_event.is_set()`, and
`self._stderr_queue.empty()`. -/
structure DrainObs where
  got : Option (Option Diagnostic)
  running : Bool
  stopSet : Bool
  queueEmpty : Bool
deriving Repr, DecidableEq

/-- What one iteration of `iter_stderr_diagnostics` does. -/
inductive DrainStepResult where
  | ret : DrainStepResult
  | cont : DrainStepResult
  | yield : Diagnostic → DrainStepResult
deriving Repr, DecidableEq

/-- The loop body of `iter_stderr_diagnostics`: on `queue.Empty` return if
the process is gone and the queue is empty, also return if the stop event
is set, else keep polling; a `None` payload returns only when the process
is gone and the queue is empty and otherwise keeps polling; any other
payload is yielded. -/
def drainStep (o : DrainObs) : DrainStepResult :=
  match o.got with
  | none =>
    if o.running = false && o.queueEmpty then .ret
    else if o.stopSet then .ret
    else .cont
  | some none =>
    if o.running = false && o.queueEmpty then .ret
    else .cont
  | some (some d) => .yield d

/-- `iter_stderr_diagnostics()` over a finite sequence of poll
observations: the diagnostics yielded in order, and whether the generator
returned (rather than still waiting for more polls). -/
def iter_stderr_diagnostics : List DrainObs → List Diagnostic × Bool
  | [] => ([], false)
  | o :: rest =>
    match drainStep o with
    | .ret => ([], true)
    | .cont => iter_stderr_diagnostics rest
    | .yield d =>
      let r := iter_stderr_diagnostics rest
      (d :: r.1, r.2)

/-- Python `a or b` for optional strings: `a` unless it is `None` or empty
(falsy), else `b`. -/
def orFalsy (a b : Option String) : Option String :=
  match a with
  | some s => if s = "" then b else some s
  | none => b

/-- `__init__`: resolves the binary and project root from arguments with
environment fallbacks (`CODEX_GODOT_BIN`, `CODEX_PROJECT_ROOT`), raising
`ValueError` when either resolves falsy; defaults `heartbeat_timeout` to
`heartbeat_interval` when it was omitted (`None`), never when explicitly
supplied; and initialises the runtime fields (id counter 1, no pending
banner request, fresh session id, last activity = now). -/
def init (envBin envRoot : Option String)
    (godotBinary projectRoot : Option String)
    (extraArgs : List String) (envOverrides : List (String × String))
    (heartbeatInterval heartbeatTimeout : Option Rat) (bannerTimeout : Rat)
    (sessionId : String) (mono : Rat) :
    Except String CodexGodotProcessManager :=
  let bin := orFalsy godotBinary envBin
  let root := orFalsy projectRoot envRoot
  match bin with
  | none => .error "Godot binary not provided. Set CODEX_GODOT_BIN or pass godot_binary."
  | some b =>
    if b = "" then
      .error "Godot binary not provided. Set CODEX_GODOT_BIN or pass godot_binary."
    else
      match root with
      | none => .error "Project root not provided. Set CODEX_PROJECT_ROOT or pass project_root."
      | some r =>
        if r = "" then
          .error "Project root not provided. Set CODEX_PROJECT_ROOT or pass project_root."
        else
          .ok
            { godotBinary := b
              projectRoot := r
              extraArgs := extraArgs
              envOverrides := envOverrides
              heartbeatInterval := heartbeatInterval
              heartbeatTimeout :=
                match heartbeatTimeout with
                | some t => some t
                | none => heartbeatInterval
              bannerTimeout := bannerTimeout
              process := none
              stdoutThreadStarted := false
              stderrThreadStarted := false
              heartbeatThreadStarted := false
              stopEvent := false
              stderrQueue := []
              idCounter := 1
              bannerRequestId := none
              banner := none
              sessionId := sessionId
              lastActivity := mono }

/-- A sequence of `send_command` calls on one session, each recorded by its
optional `id_override` (`none` = auto-assignment); returns the final state
and each call's outcome in order. -/
def sendTrace (s : CodexGodotProcessManager) (method : String) :
    List (Option Int) → CodexGodotProcessManager × List (Except SendError Int)
  | [] => (s, [])
  | o :: rest =>
    let c := s.send_command method none o
    let r := sendTrace c.1 method rest
    (r.1, c.2 :: r.2)

/-- The identifiers lines 270–271 of `send_command` assign along a call
sequence: each call takes its override or the current counter, and the
counter becomes `max(counter, request_id + 1)`. -/
def assignedIds (counter : Int) : List (Option Int) → List Int
  | [] => []
  | o :: rest =>
    let r : Int := match o with | some i => i | none => counter
    r :: assignedIds (max counter (r + 1)) rest

end CodexGodotProcessManager

namespace CodexGodotProcessManager

/-- A stdin pipe handle that is open and healthy. -/
def openStdin : StdinState := { closed := false, broken := false }

/-- A live child process with an open stdin pipe and nothing written yet. -/
def demoProc : Proc := { alive := true, stdin := some openStdin, written := [], pid := 41 }

/-- A freshly constructed session (no process, default runtime fields). -/
def demoIdle : CodexGodotProcessManager :=
  { godotBinary := "godot"
    projectRoot := "/proj"
    extraArgs := []
    envOverrides := []
    heartbeatInterval := none
    heartbeatTimeout := none
    bannerTimeout := 5
    process := none
    stdoutThreadStarted := false
    stderrThreadStarted := false
    heartbeatThreadStarted := false
    stopEvent := false
    stderrQueue := []
    idCounter := 1
    bannerRequestId := none
    banner := none
    sessionId := "session-1"
    lastActivity := 0 }

/-- A running session: `demoIdle` with a live child attached and the reader
threads started. -/
def demoRunning : CodexGodotProcessManager :=
  { demoIdle with process := some demoProc,
                  stdoutThreadStarted := true, stderrThreadStarted := true }

theorem assignedIds_length (c : Int) (tr : List (Option Int)) :
    (assignedIds c tr).length = tr.length := by
  induction tr generalizing c with
  | nil => rfl
  | cons o rest ih => simp [assignedIds, ih]

theorem assignedIds_auto_ge (tr : List (Option Int)) :
    ∀ (c : Int) (j : Nat), tr.getD j (some 0) = none →
      c ≤ (assignedIds c tr).getD j 0 := by
  induction tr with
  | nil => intro c j h; simp [List.getD] at h
  | cons o rest ih =>
    intro c j h
    cases j with
    | zero =>
      simp [List.getD] at h
      subst h
      simp [assignedIds, List.getD]
    | succ j' =>
      simp only [List.getD_cons_succ] at h
      cases o with
      | none =>
        simp only [assignedIds, List.getD_cons_succ]
        exact le_trans (le_max_left _ _) (ih _ j' h)
      | some a =>
        simp only [assignedIds, List.getD_cons_succ]
        exact le_trans (le_max_left _ _) (ih _ j' h)

theorem assignedIds_auto_gt (tr : List (Option Int)) :
    ∀ (c : Int) (i j : Nat), i < j → j < tr.length → tr.getD j (some 0) = none →
      (assignedIds c tr).getD i 0 < (assignedIds c tr).getD j 0 := by
  induction tr with
  | nil =>
    intro c i j _ hj _
    simp at hj
  | cons o rest ih =>
    intro c i j hij hj hauto
    cases j with
    | zero => omega
    | succ j' =>
      simp only [List.getD_cons_succ] at hauto
      simp only [List.length_cons, Nat.succ_lt_succ_iff] at hj
      cases i with
      | zero =>
        cases o with
        | none =>
          simp only [assignedIds, List.getD_cons_zero, List.getD_cons_succ]
          have h1 := assignedIds_auto_ge rest (max c (c + 1)) j' hauto
          have h2 : c < max c (c + 1) := lt_max_of_lt_right (by omega)
          exact lt_of_lt_of_le h2 h1
        | some a =>
          simp only [assignedIds, List.getD_cons_zero, List.getD_cons_succ]
          have h1 := assignedIds_auto_ge rest (max c (a + 1)) j' hauto
          have h2 : a < max c (a + 1) := lt_max_of_lt_right (by omega)
          exact lt_of_lt_of_le h2 h1
      | succ i' =>
        cases o with
        | none =>
          simp only [assignedIds, List.getD_cons_succ]
          exact ih _ i' j' (by omega) hj hauto
        | some a =>
          simp only [assignedIds, List.getD_cons_succ]
          exact ih _ i' j' (by omega) hj hauto

theorem sendTrace_ids (m : String) (tr : List (Option Int)) :
    ∀ (s : CodexGodotProcessManager) (p : Proc), s.process = some p → p.alive = true →
      p.stdin = some openStdin →
      (sendTrace s m tr).2 = (assignedIds s.idCounter tr).map Except.ok := by
  induction tr with
  | nil => intro s p _ _ _; rfl
  | cons o rest ih =>
    intro s p hp ha hs
    have hstep :
        (sendTrace s m (o :: rest)).2 =
          (s.send_command m none o).2 :: (sendTrace (s.send_command m none o).1 m rest).2 := rfl
    cases o with
    | none =>
      have hsend : s.send_command m none none =
          ({ s with idCounter := max s.idCounter (s.idCounter + 1),
                    process := some { p with written := p.written ++
                      [(Json.obj [("id", .num s.idCounter), ("method", .str m),
                                  ("params", .obj [])]).dumps ++ "\n"] } },
            .ok s.idCounter) := by
        simp [send_command, hp, ha, hs, openStdin]
      rw [hstep, hsend]
      have := ih
        { s with idCounter := max s.idCounter (s.idCounter + 1),
                 process := some { p with written := p.written ++
                   [(Json.obj [("id", .num s.idCounter), ("method", .str m),
                               ("params", .obj [])]).dumps ++ "\n"] } }
        { p with written := p.written ++
          [(Json.obj [("id", .num s.idCounter), ("method", .str m),
                      ("params", .obj [])]).dumps ++ "\n"] } rfl ha hs
      rw [this]
      simp [assignedIds]
    | some a =>
      have hsend : s.send_command m none (some a) =
          ({ s with idCounter := max s.idCounter (a + 1),
                    process := some { p with written := p.written ++
                      [(Json.obj [("id", .num a), ("method", .str m),
                                  ("params", .obj [])]).dumps ++ "\n"] } },
            .ok a) := by
        simp [send_command, hp, ha, hs, openStdin]
      rw [hstep, hsend]
      have := ih
        { s with idCounter := max s.idCounter (a + 1),
                 process := some { p with written := p.written ++
                   [(Json.obj [("id", .num a), ("method", .str m),
                               ("params", .obj [])]).dumps ++ "\n"] } }
        { p with written := p.written ++
          [(Json.obj [("id", .num a), ("method", .str m),
                      ("params", .obj [])]).dumps ++ "\n"] } rfl ha hs
      rw [this]
      simp [assignedIds]

/-- C1: along any sequence of `send_command` calls on a running session
with a healthy stdin pipe, every call succeeds and the identifiers are the
ones lines 270–271 assign; and every auto-assigned identifier (no
`id_override`) is strictly greater than every identifier used by any
earlier call of the sequence, whether that earlier identifier was
auto-assigned or caller-supplied — in particular the session never reuses
a session-assigned identifier. -/
theorem send_command_auto_ids_strictly_increase
    (s : CodexGodotProcessManager) (p : Proc) (m : String) (tr : List (Option Int))
    (hp : s.process = some p) (ha : p.alive = true) (hs : p.stdin = some openStdin)
    (i j : Nat) (hij : i < j) (hj : j < tr.length) (hauto : tr.getD j (some 0) = none) :
    (sendTrace s m tr).2 = (assignedIds s.idCounter tr).map Except.ok ∧
    (assignedIds s.idCounter tr).getD i 0 < (assignedIds s.idCounter tr).getD j 0 :=
  ⟨sendTrace_ids m tr s p hp ha hs,
   assignedIds_auto_gt tr s.idCounter i j hij hj hauto⟩

/-- C1 witness: the concrete running session, trace `[override 5, auto]`:
the auto call assigns 6 > 5. -/
theorem send_command_auto_ids_strictly_increase_witness :
    (sendTrace demoRunning "ping" [some 5, none]).2 =
      (assignedIds demoRunning.idCounter [some 5, none]).map Except.ok ∧
    (assignedIds demoRunning.idCounter [some 5, none]).getD 0 0 <
      (assignedIds demoRunning.idCounter [some 5, none]).getD 1 0 :=
  send_command_auto_ids_strictly_increase demoRunning demoProc "ping" [some 5, none]
    rfl rfl rfl 0 1 (by decide) (by decide) rfl

/-- An idle session configured with a heartbeat interval and timeout. -/
def demoHbIdle : CodexGodotProcessManager :=
  { demoIdle with heartbeatInterval := some 1, heartbeatTimeout := some 2 }

/-- A running session whose handshake is still pending under the reserved
id 0, as `start` leaves it. -/
def demoPending : CodexGodotProcessManager :=
  { demoRunning with bannerRequestId := some 0 }

/-- A concrete stand-in for `json.loads` used by witnesses: two known lines
decode, everything else fails. -/
def demoDecode : String → Option Json := fun t =>
  if t = "banner0" then some (Json.obj [("id", .num 0), ("result", .num 7)])
  else if t = "ping5" then
    some (Json.obj [("id", .num 5), ("method", .str "ping"), ("params", .obj [])])
  else none

theorem wrapBanner_isObj (payload : Json) : (wrapBanner payload).isObj = true := by
  unfold wrapBanner
  cases payload <;> simp [Json.isObj]

/-- C2: while the handshake is pending under the reserved id 0, a decoded
line whose `id` field equals 0 (Python `==` against the pending int) is
consumed — the whole iteration run equals the run on the remaining events
from a state whose banner is the message's `result` wrapped mapping-shaped
and whose pending id is cleared, so the message is never yielded, and only
last-activity, banner and the pending id change — and the cached banner is
always mapping-shaped. -/
theorem handshake_response_consumed
    (decode : String → Option Json) (s : CodexGodotProcessManager)
    (e : IterEvent) (rest : List IterEvent) (l : String) (fields : List (String × Json))
    (hev : e.event = .line l) (hne : ¬ (pyStrip l) = "")
    (hdec : decode (pyStrip l) = some (Json.obj fields))
    (hpend : s.bannerRequestId = some 0)
    (hid : (match Json.lookupField fields "id" with
            | some v => v.pyEqInt 0
            | none => false) = true) :
    iterMessagesFrom decode s (e :: rest) =
      iterMessagesFrom decode
        { s with lastActivity := e.mono,
                 banner := some (wrapBanner (bannerResult fields)),
                 bannerRequestId := none } rest ∧
    (wrapBanner (bannerResult fields)).isObj = true := by
  constructor
  · simp only [iterMessagesFrom, hev]
    simp only [processLine, hne, if_false, hdec, hpend, hid]
    rfl
  · exact wrapBanner_isObj _

/-- C2 witness: with the demo decoder, the pending session consumes the
banner line `"banner0"` (result `7`, wrapped) and yields nothing. -/
theorem handshake_response_consumed_witness :
    iterMessagesFrom demoDecode demoPending [{ event := .line "banner0", wall := 10, mono := 3 }] =
      iterMessagesFrom demoDecode
        { demoPending with
            lastActivity := (3 : Rat),
            banner := some (wrapBanner (bannerResult [("id", .num 0), ("result", .num 7)])),
            bannerRequestId := none } [] ∧
    (wrapBanner (bannerResult [("id", .num 0), ("result", .num 7)])).isObj = true :=
  handshake_response_consumed demoDecode demoPending
    { event := .line "banner0", wall := 10, mono := 3 } [] "banner0"
    [("id", .num 0), ("result", .num 7)] rfl (by decide) rfl rfl rfl

/-- C3: a dequeued line that is non-empty after trimming but fails to
decode never raises and never ends the iteration: the whole run equals the
run on the remaining events from a state extended by exactly one protocol
diagnostic (stream "stdout", level "protocol") carrying the stripped
text. -/
theorem decode_failure_one_diagnostic
    (decode : String → Option Json) (s : CodexGodotProcessManager)
    (e : IterEvent) (rest : List IterEvent) (l : String)
    (hev : e.event = .line l) (hne : ¬ (pyStrip l) = "") (hdec : decode (pyStrip l) = none) :
    iterMessagesFrom decode s (e :: rest) =
      iterMessagesFrom decode
        { s with stderrQueue := s.stderrQueue ++
            [some { timestamp := e.wall, stream := "stdout", text := (pyStrip l),
                    level := "protocol", session := none }] } rest := by
  simp only [iterMessagesFrom, hev]
  simp only [processLine, hne, if_false, hdec]

/-- C3 witness: the undecodable line `"not-json"` adds one protocol
diagnostic and the iteration proceeds on the rest of the queue. -/
theorem decode_failure_one_diagnostic_witness :
    iterMessagesFrom demoDecode demoRunning
        [{ event := .line "not-json", wall := 12, mono := 4 }] =
      iterMessagesFrom demoDecode
        { demoRunning with stderrQueue := demoRunning.stderrQueue ++
            [some { timestamp := 12, stream := "stdout", text := pyStrip "not-json",
                    level := "protocol", session := none }] } [] :=
  decode_failure_one_diagnostic demoDecode demoRunning
    { event := .line "not-json", wall := 12, mono := 4 } [] "not-json"
    rfl (by decide) rfl

/-- C4: `stop` is idempotent — a second call returns the first call's end
state unchanged (and performs no further process actions), that end state
is not running with the process handle cleared — and `stop` on a session
that was never started (no process handle) only records the stop signal.
The model of `stop` is a total function: no path raises. -/
theorem stop_idempotent (s : CodexGodotProcessManager) (g1 g2 : Bool) :
    (s.stop g1).1.stop g2 = ((s.stop g1).1, []) ∧
    (s.stop g1).1.is_running = false ∧
    (s.stop g1).1.process = none ∧
    (s.process = none → s.stop g1 = ({ s with stopEvent := true }, [])) := by
  refine ⟨?_, ?_, ?_, ?_⟩
  · cases hp : s.process with
    | none => simp [stop, hp]
    | some p => simp [stop, hp]
  · cases hp : s.process with
    | none => simp [stop, is_running, hp]
    | some p => simp [stop, is_running, hp]
  · cases hp : s.process with
    | none => simp [stop, hp]
    | some p => simp [stop, hp]
  · intro hp
    simp [stop, hp]

/-- C4 witness: stopping the never-started session twice — the end state
after one call is final, not running, with no handle, and the
never-started call only sets the stop event. -/
theorem stop_idempotent_witness :
    (demoIdle.stop true).1.stop true = ((demoIdle.stop true).1, []) ∧
    (demoIdle.stop true).1.is_running = false ∧
    (demoIdle.stop true).1.process = none ∧
    demoIdle.stop true = ({ demoIdle with stopEvent := true }, []) := by
  have h := stop_idempotent demoIdle true true
  exact ⟨h.1, h.2.1, h.2.2.1, h.2.2.2 rfl⟩

/-- C5: the heartbeat-timeout check is the identity when
`heartbeat_timeout` is unset or zero; with a nonzero timeout `t` it is the
identity while the elapsed monotonic time since last activity stays below
`t`, and once elapsed ≥ `t` it appends exactly one diagnostic — stream
"heartbeat", level "warning", text naming the elapsed duration, tagged
with the session id — and resets last activity to now. -/
theorem maybe_emit_heartbeat_timeout_spec
    (s : CodexGodotProcessManager) (wall : Nat) (mono : Rat) :
    ((s.heartbeatTimeout = none ∨ s.heartbeatTimeout = some 0) →
      s.maybe_emit_heartbeat_timeout wall mono = s) ∧
    (∀ t : Rat, s.heartbeatTimeout = some t → ¬ t = 0 →
      (mono - s.lastActivity < t → s.maybe_emit_heartbeat_timeout wall mono = s) ∧
      (t ≤ mono - s.lastActivity →
        s.maybe_emit_heartbeat_timeout wall mono =
          { s with
              stderrQueue := s.stderrQueue ++
                [some (heartbeatDiagnostic wall (mono - s.lastActivity) s.sessionId)],
              lastActivity := mono })) := by
  constructor
  · intro h
    rcases h with h | h <;> simp [maybe_emit_heartbeat_timeout, ratTruthy, h]
  · intro t ht htz
    constructor
    · intro hlt
      simp [maybe_emit_heartbeat_timeout, ratTruthy, ht, htz, hlt]
    · intro hge
      have hnlt : ¬ mono - s.lastActivity < t := not_lt.mpr hge
      simp [maybe_emit_heartbeat_timeout, ratTruthy, ht, htz, hnlt]

/-- C5 witness: timeout 2, last activity 0, now 5: one warning heartbeat
diagnostic naming 5.00 elapsed seconds, and last activity reset to 5. -/
theorem maybe_emit_heartbeat_timeout_spec_witness :
    demoHbIdle.maybe_emit_heartbeat_timeout 9 5 =
      { demoHbIdle with
          stderrQueue := demoHbIdle.stderrQueue ++
            [some (heartbeatDiagnostic 9 ((5 : Rat) - demoHbIdle.lastActivity)
              demoHbIdle.sessionId)],
          lastActivity := (5 : Rat) } :=
  (((maybe_emit_heartbeat_timeout_spec demoHbIdle 9 5).2 2 rfl (by norm_num)).2
    (by norm_num [demoHbIdle, demoIdle]))

/-- C9: `start` on an already-running session returns the state unchanged
and performs no effect: no spawn, no thread starts, no handshake. -/
theorem start_noop_when_running (s : CodexGodotProcessManager) (pid : Nat)
    (h : s.is_running = true) : s.start pid = (s, []) := by
  simp [start, h]

/-- C9 witness: starting the already-running demo session changes
nothing. -/
theorem start_noop_when_running_witness : demoRunning.start 99 = (demoRunning, []) :=
  start_noop_when_running demoRunning 99 rfl

/-- A running session whose stdin pipe handle is present but already
closed (as after an explicit `stdin.close()` while the child lives). -/
def demoClosedStdin : CodexGodotProcessManager :=
  { demoIdle with
      process := some { alive := true, stdin := some { closed := true, broken := false },
                        written := [], pid := 41 },
      stdoutThreadStarted := true, stderrThreadStarted := true }

/-- C6 counterexample: on a running session whose input stream is already
closed, `send_command` fails with the TransportWrite condition, not the
NotRunning condition the claim requires for a closed input stream. -/
theorem send_command_closed_stdin_cex :
    demoClosedStdin.is_running = true ∧
    (demoClosedStdin.send_command "ping" none none).2 = .error .transportWrite ∧
    ¬ (demoClosedStdin.send_command "ping" none none).2 = .error .notRunning := by
  refine ⟨rfl, rfl, ?_⟩
  intro h
  rw [show (demoClosedStdin.send_command "ping" none none).2 =
      Except.error SendError.transportWrite from rfl] at h
  simp at h

/-- C6 (amended): `send_command` fails with the NotRunning condition
exactly when no child process is active or the process has no input stream
handle at all; in that case nothing is written and the session state is
unchanged.  A present-but-closed input stream instead passes the guard and
fails with the TransportWrite condition. -/
theorem send_command_not_running_iff
    (s : CodexGodotProcessManager) (m : String) (ps : Option Json) (o : Option Int) :
    ((s.send_command m ps o).2 = .error .notRunning ↔
      (s.is_running = false ∨ (s.process.bind Proc.stdin) = none)) ∧
    ((s.send_command m ps o).2 = .error .notRunning →
      s.send_command m ps o = (s, .error .notRunning)) := by
  cases hp : s.process with
  | none => simp [send_command, is_running, hp]
  | some p =>
    cases ha : p.alive with
    | false => simp [send_command, is_running, hp, ha]
    | true =>
      cases hs : p.stdin with
      | none => simp [send_command, is_running, hp, ha, hs]
      | some st =>
        cases hc : st.closed || st.broken with
        | true => simp [send_command, is_running, hp, ha, hs, hc]
        | false => simp [send_command, is_running, hp, ha, hs, hc]

/-- C6 witness (for the amended claim): on the never-started session the
call fails with NotRunning and leaves the state untouched. -/
theorem send_command_not_running_iff_witness :
    demoIdle.send_command "ping" none none = (demoIdle, .error .notRunning) :=
  (send_command_not_running_iff demoIdle "ping" none none).2 rfl

/-- C7 counterexample: for a non-running session configured with a
heartbeat interval, `start`'s actual effect order sends the handshake
before starting the heartbeat thread, not after it as the claim orders the
steps. -/
theorem start_order_cex :
    (demoHbIdle.start 7).2 =
      [.spawn ["godot", "--headless", "--path", "/proj"],
       .startReader "stdout", .startReader "stderr",
       .sendLine (handshakeMessage "session-1"), .startHeartbeat] ∧
    ¬ (demoHbIdle.start 7).2 =
      [.spawn ["godot", "--headless", "--path", "/proj"],
       .startReader "stdout", .startReader "stderr",
       .startHeartbeat, .sendLine (handshakeMessage "session-1")] := by
  constructor
  · rfl
  · decide

/-- C7 (amended): `start` on a non-running session performs, in order:
spawn the child with the assembled command line, launch the stdout and
stderr reader threads, send the reserved handshake request with identifier
0 (recording 0 as the pending handshake identifier), and only then — if a
heartbeat interval was configured — launch the heartbeat thread. -/
theorem start_effect_order (s : CodexGodotProcessManager) (pid : Nat)
    (h : s.is_running = false) :
    (s.start pid).2 =
      [StartEffect.spawn ([s.godotBinary, "--headless", "--path", s.projectRoot]
         ++ s.extraArgs),
       .startReader "stdout", .startReader "stderr",
       .sendLine (handshakeMessage s.sessionId)] ++
      (if ratTruthy s.heartbeatInterval then [StartEffect.startHeartbeat] else []) ∧
    (s.start pid).1.bannerRequestId = some 0 := by
  cases hb : ratTruthy s.heartbeatInterval with
  | true =>
    constructor <;>
      simp [start, h, hb, send_command, handshakeMessage, BANNER_METHOD, bannerParams]
  | false =>
    constructor <;>
      simp [start, h, hb, send_command, handshakeMessage, BANNER_METHOD, bannerParams]

/-- C7 witness (for the amended claim): the heartbeat-configured idle
session starts with the handshake sent before the heartbeat thread and id
0 pending. -/
theorem start_effect_order_witness :
    (demoHbIdle.start 7).2 =
      [StartEffect.spawn (["godot", "--headless", "--path", "/proj"] ++ ([] : List String)),
       .startReader "stdout", .startReader "stderr",
       .sendLine (handshakeMessage "session-1")] ++
      (if ratTruthy demoHbIdle.heartbeatInterval then [StartEffect.startHeartbeat] else []) ∧
    (demoHbIdle.start 7).1.bannerRequestId = some 0 :=
  start_effect_order demoHbIdle 7 rfl

/-- C8 counterexample: a poll that times out while the stop event is set
returns out of `iter_stderr_diagnostics` even though the process is still
running (and the queue was observed non-empty), so the sequence does not
terminate exactly when the process is gone and the queue is empty. -/
theorem drain_stop_event_cex :
    ({ got := none, running := true, stopSet := true, queueEmpty := false : DrainObs }.running
      = true) ∧
    drainStep { got := none, running := true, stopSet := true, queueEmpty := false } =
      DrainStepResult.ret ∧
    iter_stderr_diagnostics
      [{ got := none, running := true, stopSet := true, queueEmpty := false }] = ([], true) :=
  ⟨rfl, rfl, rfl⟩

/-- C8 (amended): an `iter_stderr_diagnostics` poll returns exactly when
either the poll timed out or dequeued the `None` sentinel with the process
no longer running and the queue observed empty, or the poll timed out with
the stop event set; a `None` sentinel is never itself yielded, and while
the process is still running a dequeued `None` just keeps the drain
polling. -/
theorem drain_termination_spec (o : DrainObs) (rest : List DrainObs) :
    (drainStep o = .ret ↔
      (match o.got with
       | none => (o.running = false ∧ o.queueEmpty = true) ∨ o.stopSet = true
       | some none => o.running = false ∧ o.queueEmpty = true
       | some (some _) => False)) ∧
    (∀ d, drainStep o = .yield d → o.got = some (some d)) ∧
    (o.got = some none → o.running = true →
      iter_stderr_diagnostics (o :: rest) = iter_stderr_diagnostics rest) := by
  obtain ⟨got, running, stopSet, queueEmpty⟩ := o
  cases got with
  | none =>
    cases running <;> cases stopSet <;> cases queueEmpty <;>
      simp [drainStep, iter_stderr_diagnostics]
  | some payload =>
    cases payload with
    | none =>
      cases running <;> cases stopSet <;> cases queueEmpty <;>
        simp [drainStep, iter_stderr_diagnostics]
    | some d =>
      cases running <;> cases stopSet <;> cases queueEmpty <;>
        simp [drainStep, iter_stderr_diagnostics]

/-- C8 witness (for the amended claim): a dequeued `None` sentinel with
the process still running keeps the drain polling instead of ending it. -/
theorem drain_termination_spec_witness :
    iter_stderr_diagnostics
        [{ got := some none, running := true, stopSet := false, queueEmpty := true }] =
      iter_stderr_diagnostics [] :=
  (drain_termination_spec
    { got := some none, running := true, stopSet := false, queueEmpty := true } []).2.2 rfl rfl

/-- C10: a session constructed with `heartbeat_timeout` omitted (`None`)
defaults it to the supplied `heartbeat_interval` (itself possibly `None`),
an explicitly supplied `heartbeat_timeout` is kept as given, and that
resulting value is both what `describe_session` reports and what the
heartbeat-timeout check consults. -/
theorem init_heartbeat_timeout_default
    (envBin envRoot godotBinaryArg projectRootArg : Option String)
    (extraArgs : List String) (envOverrides : List (String × String))
    (hbInterval hbTimeout : Option Rat) (bannerTimeout : Rat)
    (sessionId : String) (mono : Rat) (s : CodexGodotProcessManager)
    (h : init envBin envRoot godotBinaryArg projectRootArg extraArgs envOverrides
          hbInterval hbTimeout bannerTimeout sessionId mono = .ok s) :
    s.heartbeatTimeout = (match hbTimeout with | some t => some t | none => hbInterval) ∧
    s.describe_session.heartbeat_timeout =
      (match hbTimeout with | some t => some t | none => hbInterval) ∧
    (∀ (wall : Nat) (m2 : Rat), s.maybe_emit_heartbeat_timeout wall m2 =
      maybe_emit_heartbeat_timeout
        { s with heartbeatTimeout :=
            (match hbTimeout with | some t => some t | none => hbInterval) } wall m2) := by
  cases hbTimeout with
  | some t =>
    unfold init at h
    dsimp only at h
    split at h
    · exact absurd h (by simp)
    · split at h
      · exact absurd h (by simp)
      · split at h
        · exact absurd h (by simp)
        · split at h
          · exact absurd h (by simp)
          · simp only [Except.ok.injEq] at h
            subst h
            exact ⟨rfl, rfl, fun wall m2 => rfl⟩
  | none =>
    unfold init at h
    dsimp only at h
    split at h
    · exact absurd h (by simp)
    · split at h
      · exact absurd h (by simp)
      · split at h
        · exact absurd h (by simp)
        · split at h
          · exact absurd h (by simp)
          · simp only [Except.ok.injEq] at h
            subst h
            exact ⟨rfl, rfl, fun wall m2 => rfl⟩

/-- The session the constructor builds from concrete arguments with
`heartbeat_interval = 3` and `heartbeat_timeout` omitted. -/
def demoConstructed : CodexGodotProcessManager :=
  { godotBinary := "godot"
    projectRoot := "/proj"
    extraArgs := []
    envOverrides := []
    heartbeatInterval := some 3
    heartbeatTimeout := some 3
    bannerTimeout := 5
    process := none
    stdoutThreadStarted := false
    stderrThreadStarted := false
    heartbeatThreadStarted := false
    stopEvent := false
    stderrQueue := []
    idCounter := 1
    bannerRequestId := none
    banner := none
    sessionId := "sid"
    lastActivity := 0 }

/-- C10 witness: constructing with interval 3 and no explicit timeout
yields timeout 3, reported by `describe_session` and consulted by the
heartbeat check. -/
theorem init_heartbeat_timeout_default_witness :
    demoConstructed.heartbeatTimeout = some 3 ∧
    demoConstructed.describe_session.heartbeat_timeout = some 3 ∧
    demoConstructed.maybe_emit_heartbeat_timeout 4 9 =
      maybe_emit_heartbeat_timeout
        { demoConstructed with heartbeatTimeout := some 3 } 4 9 :=
  have h := init_heartbeat_timeout_default (some "envgodot") none (some "godot")
    (some "/proj") [] [] (some 3) none 5 "sid" 0 demoConstructed rfl
  ⟨h.1, h.2.1, h.2.2 4 9⟩

end CodexGodotProcessManager
